import Mathlib

set_option maxRecDepth 4000

/-
Verification of the frontend presentation layer: the axios client wrapper
(src/frontend/src/lib/api.ts), the tasks page (src/unnamed/part_000), the
analysis page (src/unnamed/part_001), the dashboard and datasets page
(src/frontend/src/app/page.tsx), the results page
(src/frontend/src/app/results/page.tsx) and the login page
(src/frontend/src/app/login/page.tsx).
-/

/-- localStorage modelled as an association list of key-value pairs.
localStorage.getItem returns null (none) or the stored string. -/
abbrev Storage := List (String × String)

/-- Models localStorage.getItem. -/
def Storage.getItem (s : Storage) (k : String) : Option String :=
  (List.find? (fun p => p.1 == k) s).map Prod.snd

/-- Models localStorage.removeItem. -/
def Storage.removeItem (s : Storage) (k : String) : Storage :=
  List.filter (fun p => p.1 != k) s

/-- The browser state touched by the response interceptor: localStorage and
window.location.href. -/
structure BrowserState where
  storage : Storage
  locationHref : String
deriving DecidableEq, Repr

/-- Request headers as an association list, as on an axios request config. -/
def getHeader (hs : List (String × String)) (k : String) : Option String :=
  (List.find? (fun p => p.1 == k) hs).map Prod.snd

/-- Models the assignment config.headers.Authorization = v. -/
def setHeader (hs : List (String × String)) (k v : String) : List (String × String) :=
  (k, v) :: List.filter (fun p => p.1 != k) hs

/-- The part of an axios request config the request interceptor touches. -/
structure RequestConfig where
  headers : List (String × String)
deriving DecidableEq, Repr

/-- Embeds the request interceptor installed by ApiClient.setupInterceptors
(src/frontend/src/lib/api.ts lines 98-109): it reads localStorage
access_token and, when the value is truthy in the JavaScript sense (non-null
and nonempty), sets the Authorization header to "Bearer " followed by the
token; otherwise the config passes through unchanged. -/
def requestInterceptor (storage : Storage) (config : RequestConfig) : RequestConfig :=
  match Storage.getItem storage "access_token" with
  | none => config
  | some t =>
    if t == "" then config
    else { config with headers := setHeader config.headers "Authorization" ("Bearer " ++ t) }

/-- The part of an axios error the response interceptor inspects:
error.response?.status (none when there is no response). -/
structure ApiError where
  responseStatus : Option Nat
deriving DecidableEq, Repr

/-- Outcome of an interceptor: the promise resolves or rejects with the error. -/
inductive PromiseOutcome where
  | resolved
  | rejected (e : ApiError)
deriving DecidableEq, Repr

/-- What the response interceptor error handler produced: the new browser
state, the HTTP requests the handler itself issued, and the promise outcome. -/
structure ErrorInterceptorOutput where
  state : BrowserState
  issuedRequests : List String
  outcome : PromiseOutcome
deriving DecidableEq, Repr

/-- Embeds the response interceptor error handler of
ApiClient.setupInterceptors (src/frontend/src/lib/api.ts lines 112-122): when
error.response?.status is 401 it removes access_token from localStorage and
sets window.location.href to /login, and in every case it returns
Promise.reject(error). The handler body contains no axios call, so it issues
no HTTP request of its own. -/
def responseErrorInterceptor (st : BrowserState) (e : ApiError) : ErrorInterceptorOutput :=
  if e.responseStatus == some 401 then
    { state := { storage := Storage.removeItem st.storage "access_token"
                 locationHref := "/login" }
      issuedRequests := []
      outcome := .rejected e }
  else
    { state := st, issuedRequests := [], outcome := .rejected e }

theorem getItem_removeItem (s : Storage) (k : String) :
    Storage.getItem (Storage.removeItem s k) k = none := by
  unfold Storage.getItem Storage.removeItem
  rw [Option.map_eq_none', List.find?_eq_none]
  intro p hp
  rcases List.mem_filter.mp hp with ⟨-, hne⟩
  simpa using hne

/-- C1: a response error with status 401 makes the interceptor remove
access_token from localStorage, set window.location.href to /login, and still
reject the promise with the original error; any other error status leaves the
browser state unchanged and rejects the promise. -/
theorem c1_response_401_forced_logout (st : BrowserState) (e : ApiError) :
    (e.responseStatus = some 401 →
      Storage.getItem (responseErrorInterceptor st e).state.storage "access_token" = none ∧
      (responseErrorInterceptor st e).state.locationHref = "/login" ∧
      (responseErrorInterceptor st e).outcome = PromiseOutcome.rejected e) ∧
    (e.responseStatus ≠ some 401 →
      (responseErrorInterceptor st e).state = st ∧
      (responseErrorInterceptor st e).outcome = PromiseOutcome.rejected e) := by
  constructor
  · intro h
    simp only [responseErrorInterceptor, h]
    exact ⟨getItem_removeItem st.storage "access_token", rfl, rfl⟩
  · intro h
    simp [responseErrorInterceptor, h]

theorem c1_response_401_forced_logout_witness :
    Storage.getItem (responseErrorInterceptor ⟨[("access_token", "tok")], "/tasks"⟩
      ⟨some 401⟩).state.storage "access_token" = none ∧
    (responseErrorInterceptor ⟨[("access_token", "tok")], "/tasks"⟩
      ⟨some 401⟩).state.locationHref = "/login" ∧
    (responseErrorInterceptor ⟨[("access_token", "tok")], "/tasks"⟩
      ⟨some 401⟩).outcome = PromiseOutcome.rejected ⟨some 401⟩ :=
  (c1_response_401_forced_logout ⟨[("access_token", "tok")], "/tasks"⟩ ⟨some 401⟩).1 rfl

/-- C2 as stated is false: localStorage may hold the empty string under
access_token; that value is non-null, yet the JavaScript truthiness test
if (token) fails on it, so the interceptor attaches no Authorization header.
Concrete input: storage [("access_token", "")] and an empty config. -/
theorem c2_counterexample :
    Storage.getItem [("access_token", "")] "access_token" = some "" ∧
    requestInterceptor [("access_token", "")] ⟨[]⟩ = ⟨[]⟩ ∧
    getHeader (requestInterceptor [("access_token", "")] ⟨[]⟩).headers "Authorization" = none := by
  refine ⟨rfl, rfl, rfl⟩

theorem getHeader_setHeader (hs : List (String × String)) (k v : String) :
    getHeader (setHeader hs k v) k = some v := by
  simp [getHeader, setHeader, List.find?]

/-- C2 amended: when localStorage holds a non-null, nonempty value under
access_token the outgoing request carries Authorization set to "Bearer "
followed by that value; when localStorage holds no value, or the empty
string, the interceptor leaves the config unchanged and adds no
Authorization header. -/
theorem c2_token_attachment (storage : Storage) (config : RequestConfig) (t : String) :
    (Storage.getItem storage "access_token" = some t → t ≠ "" →
      getHeader (requestInterceptor storage config).headers "Authorization" =
        some ("Bearer " ++ t)) ∧
    (Storage.getItem storage "access_token" = none ∨
        Storage.getItem storage "access_token" = some "" →
      requestInterceptor storage config = config) := by
  constructor
  · intro h ht
    simp only [requestInterceptor, h]
    rw [if_neg (by simpa using ht)]
    exact getHeader_setHeader config.headers "Authorization" ("Bearer " ++ t)
  · intro h
    rcases h with h | h <;> simp [requestInterceptor, h]

theorem c2_token_attachment_witness :
    getHeader (requestInterceptor [("access_token", "abc")] ⟨[]⟩).headers "Authorization" =
      some ("Bearer " ++ "abc") :=
  (c2_token_attachment [("access_token", "abc")] ⟨[]⟩ "abc").1 rfl (by decide)

/-- HTTP method used by the client wrapper. -/
inductive HttpMethod where
  | get
  | post
  | del
deriving DecidableEq, Repr

/-- Axios responseType: json is the default; exportResult asks for blob. -/
inductive RespType where
  | json
  | blob
deriving DecidableEq, Repr

/-- Request body shapes appearing in the client wrapper. Payloads whose
structure the wrapper never inspects (taskData, FormData) are carried
opaquely. -/
inductive ReqBody where
  | noBody
  | loginBody (username password : String)
  | taskData (payload : String)
  | resultIds (ids : List Int)
  | formDataBody
deriving DecidableEq, Repr

/-- One HTTP request as built by a client wrapper method. -/
structure HttpRequest where
  method : HttpMethod
  url : String
  respType : RespType
  body : ReqBody
deriving DecidableEq, Repr

/-- An axios response: the wrapper methods only ever read the data field. -/
structure ApiResponse (D : Type) where
  data : D
  status : Nat
deriving DecidableEq, Repr

/-- The shape shared by every public ApiClient method body: build one
request, await it, and return response.data; a rejected request propagates
the error. The first component records every request the method issued, in
order. -/
def awaitData {D : Type} (respond : HttpRequest → Except ApiError (ApiResponse D))
    (req : HttpRequest) : List HttpRequest × Except ApiError D :=
  ([req], Except.map ApiResponse.data (respond req))

/-- Embeds ApiClient.login (src/frontend/src/lib/api.ts lines 127-133). -/
def ApiClient.login {D : Type} (respond : HttpRequest → Except ApiError (ApiResponse D))
    (username password : String) : List HttpRequest × Except ApiError D :=
  awaitData respond ⟨.post, "/auth/login", .json, .loginBody username password⟩

/-- Embeds ApiClient.getProfile. -/
def ApiClient.getProfile {D : Type} (respond : HttpRequest → Except ApiError (ApiResponse D)) :
    List HttpRequest × Except ApiError D :=
  awaitData respond ⟨.get, "/auth/profile", .json, .noBody⟩

/-- Embeds ApiClient.getAlgorithms. -/
def ApiClient.getAlgorithms {D : Type} (respond : HttpRequest → Except ApiError (ApiResponse D)) :
    List HttpRequest × Except ApiError D :=
  awaitData respond ⟨.get, "/algorithms", .json, .noBody⟩

/-- Embeds ApiClient.getAlgorithmInfo. -/
def ApiClient.getAlgorithmInfo {D : Type} (respond : HttpRequest → Except ApiError (ApiResponse D))
    (algorithmName : String) : List HttpRequest × Except ApiError D :=
  awaitData respond ⟨.get, "/algorithms/" ++ algorithmName ++ "/info", .json, .noBody⟩

/-- Embeds ApiClient.getAlgorithmParameters. -/
def ApiClient.getAlgorithmParameters {D : Type}
    (respond : HttpRequest → Except ApiError (ApiResponse D)) (algorithmName : String) :
    List HttpRequest × Except ApiError D :=
  awaitData respond ⟨.get, "/algorithms/" ++ algorithmName ++ "/parameters", .json, .noBody⟩

/-- Embeds ApiClient.getAlgorithmComparison. -/
def ApiClient.getAlgorithmComparison {D : Type}
    (respond : HttpRequest → Except ApiError (ApiResponse D)) :
    List HttpRequest × Except ApiError D :=
  awaitData respond ⟨.get, "/algorithms/comparison", .json, .noBody⟩

/-- Embeds ApiClient.getDatasets. -/
def ApiClient.getDatasets {D : Type} (respond : HttpRequest → Except ApiError (ApiResponse D)) :
    List HttpRequest × Except ApiError D :=
  awaitData respond ⟨.get, "/datasets", .json, .noBody⟩

/-- Embeds ApiClient.uploadDataset: a POST of the FormData to
/datasets/upload (the multipart header and longer timeout do not change the
request target or the returned body). -/
def ApiClient.uploadDataset {D : Type} (respond : HttpRequest → Except ApiError (ApiResponse D)) :
    List HttpRequest × Except ApiError D :=
  awaitData respond ⟨.post, "/datasets/upload", .json, .formDataBody⟩

/-- Embeds ApiClient.getDataset. -/
def ApiClient.getDataset {D : Type} (respond : HttpRequest → Except ApiError (ApiResponse D))
    (datasetId : Int) : List HttpRequest × Except ApiError D :=
  awaitData respond ⟨.get, "/datasets/" ++ toString datasetId, .json, .noBody⟩

/-- Embeds ApiClient.previewDataset; the limit argument defaults to 10 when
omitted (none). -/
def ApiClient.previewDataset {D : Type} (respond : HttpRequest → Except ApiError (ApiResponse D))
    (datasetId : Int) (limit : Option Int) : List HttpRequest × Except ApiError D :=
  awaitData respond ⟨.get, "/datasets/" ++ toString datasetId ++ "/preview?limit=" ++
    toString (limit.getD 10), .json, .noBody⟩

/-- Embeds ApiClient.deleteDataset. -/
def ApiClient.deleteDataset {D : Type} (respond : HttpRequest → Except ApiError (ApiResponse D))
    (datasetId : Int) : List HttpRequest × Except ApiError D :=
  awaitData respond ⟨.del, "/datasets/" ++ toString datasetId, .json, .noBody⟩

/-- Embeds ApiClient.validateDataset. -/
def ApiClient.validateDataset {D : Type} (respond : HttpRequest → Except ApiError (ApiResponse D))
    (datasetId : Int) : List HttpRequest × Except ApiError D :=
  awaitData respond ⟨.post, "/datasets/" ++ toString datasetId ++ "/validate", .json, .noBody⟩

/-- Embeds ApiClient.getDatasetStatistics. -/
def ApiClient.getDatasetStatistics {D : Type}
    (respond : HttpRequest → Except ApiError (ApiResponse D)) :
    List HttpRequest × Except ApiError D :=
  awaitData respond ⟨.get, "/datasets/statistics", .json, .noBody⟩

/-- Embeds ApiClient.createTask. -/
def ApiClient.createTask {D : Type} (respond : HttpRequest → Except ApiError (ApiResponse D))
    (payload : String) : List HttpRequest × Except ApiError D :=
  awaitData respond ⟨.post, "/tasks", .json, .taskData payload⟩

/-- Embeds ApiClient.getTasks. -/
def ApiClient.getTasks {D : Type} (respond : HttpRequest → Except ApiError (ApiResponse D)) :
    List HttpRequest × Except ApiError D :=
  awaitData respond ⟨.get, "/tasks", .json, .noBody⟩

/-- Embeds ApiClient.getTask. -/
def ApiClient.getTask {D : Type} (respond : HttpRequest → Except ApiError (ApiResponse D))
    (taskId : Int) : List HttpRequest × Except ApiError D :=
  awaitData respond ⟨.get, "/tasks/" ++ toString taskId, .json, .noBody⟩

/-- Embeds ApiClient.startTask. -/
def ApiClient.startTask {D : Type} (respond : HttpRequest → Except ApiError (ApiResponse D))
    (taskId : Int) : List HttpRequest × Except ApiError D :=
  awaitData respond ⟨.post, "/tasks/" ++ toString taskId ++ "/start", .json, .noBody⟩

/-- Embeds ApiClient.cancelTask. -/
def ApiClient.cancelTask {D : Type} (respond : HttpRequest → Except ApiError (ApiResponse D))
    (taskId : Int) : List HttpRequest × Except ApiError D :=
  awaitData respond ⟨.post, "/tasks/" ++ toString taskId ++ "/cancel", .json, .noBody⟩

/-- Embeds ApiClient.deleteTask. -/
def ApiClient.deleteTask {D : Type} (respond : HttpRequest → Except ApiError (ApiResponse D))
    (taskId : Int) : List HttpRequest × Except ApiError D :=
  awaitData respond ⟨.del, "/tasks/" ++ toString taskId, .json, .noBody⟩

/-- Embeds ApiClient.getRunningTasks. -/
def ApiClient.getRunningTasks {D : Type} (respond : HttpRequest → Except ApiError (ApiResponse D)) :
    List HttpRequest × Except ApiError D :=
  awaitData respond ⟨.get, "/tasks/running", .json, .noBody⟩

/-- Embeds ApiClient.getTaskStatistics. -/
def ApiClient.getTaskStatistics {D : Type}
    (respond : HttpRequest → Except ApiError (ApiResponse D)) :
    List HttpRequest × Except ApiError D :=
  awaitData respond ⟨.get, "/tasks/statistics", .json, .noBody⟩

/-- Embeds ApiClient.getTaskServiceStatus. -/
def ApiClient.getTaskServiceStatus {D : Type}
    (respond : HttpRequest → Except ApiError (ApiResponse D)) :
    List HttpRequest × Except ApiError D :=
  awaitData respond ⟨.get, "/tasks/service/status", .json, .noBody⟩

/-- Embeds ApiClient.getResults. -/
def ApiClient.getResults {D : Type} (respond : HttpRequest → Except ApiError (ApiResponse D)) :
    List HttpRequest × Except ApiError D :=
  awaitData respond ⟨.get, "/results", .json, .noBody⟩

/-- Embeds ApiClient.getResult. -/
def ApiClient.getResult {D : Type} (respond : HttpRequest → Except ApiError (ApiResponse D))
    (resultId : Int) : List HttpRequest × Except ApiError D :=
  awaitData respond ⟨.get, "/results/" ++ toString resultId, .json, .noBody⟩

/-- Embeds ApiClient.compareResults. -/
def ApiClient.compareResults {D : Type} (respond : HttpRequest → Except ApiError (ApiResponse D))
    (ids : List Int) : List HttpRequest × Except ApiError D :=
  awaitData respond ⟨.post, "/results/comparison", .json, .resultIds ids⟩

/-- Embeds ApiClient.exportResult (src/frontend/src/lib/api.ts lines
263-268): a GET with responseType blob whose query string carries the format
argument, defaulting to csv when the argument is omitted (none). -/
def ApiClient.exportResult {D : Type} (respond : HttpRequest → Except ApiError (ApiResponse D))
    (resultId : Int) (format : Option String) : List HttpRequest × Except ApiError D :=
  awaitData respond ⟨.get, "/results/" ++ toString resultId ++ "/export?format=" ++
    format.getD "csv", .blob, .noBody⟩

/-- Embeds ApiClient.deleteResult. -/
def ApiClient.deleteResult {D : Type} (respond : HttpRequest → Except ApiError (ApiResponse D))
    (resultId : Int) : List HttpRequest × Except ApiError D :=
  awaitData respond ⟨.del, "/results/" ++ toString resultId, .json, .noBody⟩

/-- Embeds ApiClient.getResultStatistics. -/
def ApiClient.getResultStatistics {D : Type}
    (respond : HttpRequest → Except ApiError (ApiResponse D)) :
    List HttpRequest × Except ApiError D :=
  awaitData respond ⟨.get, "/results/statistics", .json, .noBody⟩

/-- A client method call issued exactly one request, with the given method,
url and response type, and its return value is the data field of that
request's response, unmodified (errors propagate unmodified as well). -/
def oneRequestReturningData {D : Type} (call : List HttpRequest × Except ApiError D)
    (respond : HttpRequest → Except ApiError (ApiResponse D))
    (m : HttpMethod) (u : String) (rt : RespType) : Prop :=
  ∃ req, call.1 = [req] ∧ req.method = m ∧ req.url = u ∧ req.respType = rt ∧
    call.2 = Except.map ApiResponse.data (respond req)

theorem awaitData_oneRequest {D : Type} (respond : HttpRequest → Except ApiError (ApiResponse D))
    (req : HttpRequest) :
    oneRequestReturningData (awaitData respond req) respond req.method req.url req.respType :=
  ⟨req, rfl, rfl, rfl, rfl, rfl⟩

/-- C6: every public ApiClient method issues exactly one HTTP request, to a
fixed endpoint path determined only by the method and its arguments, and
returns response.data unmodified — for any response oracle, including a
failing one. -/
theorem c6_one_request_per_method (D : Type)
    (respond : HttpRequest → Except ApiError (ApiResponse D))
    (username password algorithmName payload : String)
    (datasetId taskId resultId : Int) (limit : Option Int)
    (ids : List Int) (format : Option String) :
    oneRequestReturningData (ApiClient.login respond username password) respond
      .post "/auth/login" .json ∧
    oneRequestReturningData (ApiClient.getProfile respond) respond
      .get "/auth/profile" .json ∧
    oneRequestReturningData (ApiClient.getAlgorithms respond) respond
      .get "/algorithms" .json ∧
    oneRequestReturningData (ApiClient.getAlgorithmInfo respond algorithmName) respond
      .get ("/algorithms/" ++ algorithmName ++ "/info") .json ∧
    oneRequestReturningData (ApiClient.getAlgorithmParameters respond algorithmName) respond
      .get ("/algorithms/" ++ algorithmName ++ "/parameters") .json ∧
    oneRequestReturningData (ApiClient.getAlgorithmComparison respond) respond
      .get "/algorithms/comparison" .json ∧
    oneRequestReturningData (ApiClient.getDatasets respond) respond
      .get "/datasets" .json ∧
    oneRequestReturningData (ApiClient.uploadDataset respond) respond
      .post "/datasets/upload" .json ∧
    oneRequestReturningData (ApiClient.getDataset respond datasetId) respond
      .get ("/datasets/" ++ toString datasetId) .json ∧
    oneRequestReturningData (ApiClient.previewDataset respond datasetId limit) respond
      .get ("/datasets/" ++ toString datasetId ++ "/preview?limit=" ++
        toString (limit.getD 10)) .json ∧
    oneRequestReturningData (ApiClient.deleteDataset respond datasetId) respond
      .del ("/datasets/" ++ toString datasetId) .json ∧
    oneRequestReturningData (ApiClient.validateDataset respond datasetId) respond
      .post ("/datasets/" ++ toString datasetId ++ "/validate") .json ∧
    oneRequestReturningData (ApiClient.getDatasetStatistics respond) respond
      .get "/datasets/statistics" .json ∧
    oneRequestReturningData (ApiClient.createTask respond payload) respond
      .post "/tasks" .json ∧
    oneRequestReturningData (ApiClient.getTasks respond) respond
      .get "/tasks" .json ∧
    oneRequestReturningData (ApiClient.getTask respond taskId) respond
      .get ("/tasks/" ++ toString taskId) .json ∧
    oneRequestReturningData (ApiClient.startTask respond taskId) respond
      .post ("/tasks/" ++ toString taskId ++ "/start") .json ∧
    oneRequestReturningData (ApiClient.cancelTask respond taskId) respond
      .post ("/tasks/" ++ toString taskId ++ "/cancel") .json ∧
    oneRequestReturningData (ApiClient.deleteTask respond taskId) respond
      .del ("/tasks/" ++ toString taskId) .json ∧
    oneRequestReturningData (ApiClient.getRunningTasks respond) respond
      .get "/tasks/running" .json ∧
    oneRequestReturningData (ApiClient.getTaskStatistics respond) respond
      .get "/tasks/statistics" .json ∧
    oneRequestReturningData (ApiClient.getTaskServiceStatus respond) respond
      .get "/tasks/service/status" .json ∧
    oneRequestReturningData (ApiClient.getResults respond) respond
      .get "/results" .json ∧
    oneRequestReturningData (ApiClient.getResult respond resultId) respond
      .get ("/results/" ++ toString resultId) .json ∧
    oneRequestReturningData (ApiClient.compareResults respond ids) respond
      .post "/results/comparison" .json ∧
    oneRequestReturningData (ApiClient.exportResult respond resultId format) respond
      .get ("/results/" ++ toString resultId ++ "/export?format=" ++ format.getD "csv") .blob ∧
    oneRequestReturningData (ApiClient.deleteResult respond resultId) respond
      .del ("/results/" ++ toString resultId) .json ∧
    oneRequestReturningData (ApiClient.getResultStatistics respond) respond
      .get "/results/statistics" .json :=
  ⟨awaitData_oneRequest respond _, awaitData_oneRequest respond _,
   awaitData_oneRequest respond _, awaitData_oneRequest respond _,
   awaitData_oneRequest respond _, awaitData_oneRequest respond _,
   awaitData_oneRequest respond _, awaitData_oneRequest respond _,
   awaitData_oneRequest respond _, awaitData_oneRequest respond _,
   awaitData_oneRequest respond _, awaitData_oneRequest respond _,
   awaitData_oneRequest respond _, awaitData_oneRequest respond _,
   awaitData_oneRequest respond _, awaitData_oneRequest respond _,
   awaitData_oneRequest respond _, awaitData_oneRequest respond _,
   awaitData_oneRequest respond _, awaitData_oneRequest respond _,
   awaitData_oneRequest respond _, awaitData_oneRequest respond _,
   awaitData_oneRequest respond _, awaitData_oneRequest respond _,
   awaitData_oneRequest respond _, awaitData_oneRequest respond _,
   awaitData_oneRequest respond _, awaitData_oneRequest respond _⟩

/-- C7: exportResult issues one GET to /results/(resultId)/export with
responseType blob and returns the blob body; an omitted format argument
yields query string format=csv, a supplied format argument yields query
string format=(format). -/
theorem c7_exportResult_blob (D : Type)
    (respond : HttpRequest → Except ApiError (ApiResponse D))
    (resultId : Int) (format : String) :
    oneRequestReturningData (ApiClient.exportResult respond resultId none) respond
      .get ("/results/" ++ toString resultId ++ "/export?format=" ++ "csv") .blob ∧
    oneRequestReturningData (ApiClient.exportResult respond resultId (some format)) respond
      .get ("/results/" ++ toString resultId ++ "/export?format=" ++ format) .blob :=
  ⟨awaitData_oneRequest respond _, awaitData_oneRequest respond _⟩

/-- Outcome of one invocation of the task-list fetch: the promise of
apiClient.getTasks resolved or rejected. -/
inductive FetchOutcome where
  | success
  | failure
deriving DecidableEq, Repr

/-- The page-level operations a TasksPage effect can invoke. -/
inductive PageAction where
  | fetchTasks
  | fetchStatistics
deriving DecidableEq, Repr

/-- An interval timer as installed by window.setInterval: an id, a delay in
milliseconds, and the action its callback performs. -/
structure IntervalTimer where
  id : Nat
  delay : Nat
  callback : PageAction
deriving DecidableEq, Repr

/-- What running the mount effect produced: the actions called immediately
and the interval timers installed. -/
structure MountResult where
  immediateCalls : List PageAction
  timers : List IntervalTimer
deriving DecidableEq, Repr

/-- Embeds the body of the TasksPage useEffect with empty dependency array
(src/unnamed/part_000 lines 32-46), which React runs once when the page
mounts: it calls fetchTasks and fetchStatistics once, then installs a single
interval timer with delay 5000 whose callback calls fetchTasks. -/
def tasksPageMount (freshId : Nat) : MountResult :=
  { immediateCalls := [.fetchTasks, .fetchStatistics]
    timers := [{ id := freshId, delay := 5000, callback := .fetchTasks }] }

/-- Embeds the cleanup closure returned by that useEffect, which React runs
when the page unmounts: if (interval) clearInterval(interval). It receives
the interval handle captured at mount (always non-null here) and returns the
ids of the timers it clears. -/
def tasksPageCleanup (interval : Option IntervalTimer) : List Nat :=
  match interval with
  | some t => [t.id]
  | none => []

/-- A general shape for a polling loop, in which backoff, cancellation on
failure, and deduplication against in-flight fetches would be expressible:
after a history of fetch outcomes, the policy picks the delay before the next
firing, whether to stop firing, and which action (if any) the callback
performs. -/
structure PollingPolicy where
  delayAfter : List FetchOutcome → Nat
  cancelAfter : List FetchOutcome → Bool
  callbackAfter : List FetchOutcome → Option PageAction

/-- The policy the TasksPage code implements: setInterval fires with the
fixed delay 5000 whatever the history, nothing in the code clears the
interval on failure, and the callback invokes fetchTasks unconditionally
(src/unnamed/part_000 lines 37-39). -/
def tasksPollingPolicy : PollingPolicy :=
  { delayAfter := fun _ => 5000
    cancelAfter := fun _ => false
    callbackAfter := fun _ => some PageAction.fetchTasks }

/-- Discrete-time run of a polling policy: starting at time t with the given
outcome history, produce the (time, action) pairs of the next fuel firings.
The outcome oracle supplies the result of each fetch, extending the history
the policy may consult. -/
def runPolling (p : PollingPolicy) (outcomes : Nat → FetchOutcome) :
    Nat → Nat → List FetchOutcome → List (Nat × Option PageAction)
  | 0, _, _ => []
  | Nat.succ fuel, t, hist =>
    if p.cancelAfter hist then []
    else
      (t + p.delayAfter hist, p.callbackAfter hist) ::
        runPolling p outcomes fuel (t + p.delayAfter hist) (hist ++ [outcomes hist.length])

theorem runPolling_tasks (outcomes : Nat → FetchOutcome) (fuel t : Nat)
    (hist : List FetchOutcome) :
    runPolling tasksPollingPolicy outcomes fuel t hist =
      (List.range fuel).map (fun k => (t + 5000 * (k + 1), some PageAction.fetchTasks)) := by
  induction fuel generalizing t hist with
  | zero => rfl
  | succ n ih =>
    have step : runPolling tasksPollingPolicy outcomes (n + 1) t hist =
        (t + 5000, some PageAction.fetchTasks) ::
          runPolling tasksPollingPolicy outcomes n (t + 5000) (hist ++ [outcomes hist.length]) := by
      rw [runPolling]
      rfl
    rw [step, ih, List.range_succ_eq_map, List.map_cons, List.map_map]
    refine List.cons_eq_cons.mpr ⟨by norm_num, ?_⟩
    refine List.map_congr_left ?_
    intro k _
    refine Prod.ext ?_ rfl
    show t + 5000 + 5000 * (k + 1) = t + 5000 * (Nat.succ k + 1)
    omega

/-- C3: mounting the task-monitoring page installs a single interval timer
with fixed delay 5000 whose callback is the task-list fetch; the resulting
firing schedule is the fixed arithmetic progression of 5000-millisecond
steps, invoking fetchTasks at every firing, identically for every outcome
oracle — so no backoff after failure, no cancellation when a fetch fails,
and no skipping while a fetch is in flight; and the cleanup run at unmount
clears exactly that timer. -/
theorem c3_fixed_interval_polling (freshId fuel t : Nat)
    (outcomes otherOutcomes : Nat → FetchOutcome) :
    (tasksPageMount freshId).timers = [⟨freshId, 5000, PageAction.fetchTasks⟩] ∧
    runPolling tasksPollingPolicy outcomes fuel t [] =
      (List.range fuel).map (fun k => (t + 5000 * (k + 1), some PageAction.fetchTasks)) ∧
    runPolling tasksPollingPolicy outcomes fuel t [] =
      runPolling tasksPollingPolicy otherOutcomes fuel t [] ∧
    tasksPageCleanup (some ⟨freshId, 5000, PageAction.fetchTasks⟩) = [freshId] :=
  ⟨rfl, runPolling_tasks outcomes fuel t [],
    (runPolling_tasks outcomes fuel t []).trans (runPolling_tasks otherOutcomes fuel t []).symm,
    rfl⟩

/-- C5 as stated is false: after the task-list fetch fired at time 5000
fails, the polling timer makes the code itself issue the same task-list
request again at time 10000, with no manual user re-action involved.
Concrete input: the all-failure outcome oracle, two firings from time 0. -/
theorem c5_counterexample :
    runPolling tasksPollingPolicy (fun _ => FetchOutcome.failure) 2 0 [] =
      [(5000, some PageAction.fetchTasks), (10000, some PageAction.fetchTasks)] := rfl

/-- C5 amended: after an API call fails the client performs no
failure-triggered retry and no backoff — the response interceptor error
handler issues no request of its own, a client method that receives a
rejection has still issued exactly one request, and the task-list polling
schedule is identical for every outcome oracle; but the fixed-interval
polling timer does re-issue the task-list request automatically, so only
apart from it is a failed request re-attempted solely by manual user
re-action. -/
theorem c5_no_failure_triggered_retry (st : BrowserState) (e : ApiError) (D : Type)
    (outcomes otherOutcomes : Nat → FetchOutcome) (fuel t : Nat) :
    (responseErrorInterceptor st e).issuedRequests = [] ∧
    (ApiClient.getTasks (fun _ => Except.error e) : List HttpRequest × Except ApiError D).1.length = 1 ∧
    runPolling tasksPollingPolicy outcomes fuel t [] =
      runPolling tasksPollingPolicy otherOutcomes fuel t [] := by
  refine ⟨?_, rfl, (runPolling_tasks outcomes fuel t []).trans
    (runPolling_tasks otherOutcomes fuel t []).symm⟩
  unfold responseErrorInterceptor
  split <;> rfl

/-- How a catch block surfaces the failure of an API call to the user. -/
inductive ErrorSurface where
  | toast (msg : String)
  | toastFromResponse (fallbackMsg : String)
  | consoleOnly (msg : String)
  | inlineAlert (msg : String)
deriving DecidableEq, Repr

/-- A page handler that awaits an ApiClient call inside try/catch, with what
its catch block does. -/
structure PageHandler where
  page : String
  handlerName : String
  onFailure : ErrorSurface
deriving DecidableEq, Repr

/-- Every page handler in the repository that awaits an ApiClient call inside
try/catch, with the failure behaviour transcribed from its catch block:
toast is message.error with a fixed string, toastFromResponse is
message.error(error?.response?.data?.message || fallback), consoleOnly is
console.error alone, inlineAlert is setError plus console.error (rendered as
an Alert, not a toast). Transcribed from src/unnamed/part_000,
src/unnamed/part_001, src/frontend/src/app/page.tsx,
src/frontend/src/app/results/page.tsx and
src/frontend/src/app/login/page.tsx. -/
def pageHandlers : List PageHandler := [
  ⟨"TasksPage", "fetchTasks", .toast "获取任务列表失败"⟩,
  ⟨"TasksPage", "fetchStatistics", .consoleOnly "获取统计信息失败:"⟩,
  ⟨"TasksPage", "handleStartTask", .toastFromResponse "启动任务失败"⟩,
  ⟨"TasksPage", "handleCancelTask", .toast "取消任务失败"⟩,
  ⟨"TasksPage", "handleDeleteTask", .toast "删除失败"⟩,
  ⟨"TasksPage", "handleViewDetails", .toast "获取任务详情失败"⟩,
  ⟨"AnalysisPage", "fetchInitialData", .toast "获取数据失败"⟩,
  ⟨"AnalysisPage", "fetchAlgorithmDetails", .toast "获取算法详情失败"⟩,
  ⟨"AnalysisPage", "handleSubmitTask", .toastFromResponse "创建任务失败"⟩,
  ⟨"Dashboard", "fetchDashboardData", .inlineAlert "获取仪表板数据失败"⟩,
  ⟨"DatasetsPage", "fetchDatasets", .toast "获取数据集列表失败"⟩,
  ⟨"DatasetsPage", "fetchStatistics", .consoleOnly "获取统计信息失败:"⟩,
  ⟨"DatasetsPage", "handleUpload", .toastFromResponse "上传失败"⟩,
  ⟨"DatasetsPage", "handleDelete", .toast "删除失败"⟩,
  ⟨"DatasetsPage", "handlePreview", .toast "预览失败"⟩,
  ⟨"ResultsPage", "fetchResults", .toast "获取结果列表失败"⟩,
  ⟨"ResultsPage", "fetchStatistics", .consoleOnly "获取统计信息失败:"⟩,
  ⟨"ResultsPage", "handleExport", .toast "导出失败"⟩,
  ⟨"LoginPage", "onFinish", .toastFromResponse "登录失败"⟩]

/-- Whether a failure behaviour shows the user a toast notification. -/
def surfacesToast : ErrorSurface → Bool
  | .toast _ => true
  | .toastFromResponse _ => true
  | .consoleOnly _ => false
  | .inlineAlert _ => false

/-- C4 as stated is false: the statistics fetch of the task-monitoring page
is a page handler whose API call can fail, and its catch block only logs to
the console — no toast is shown. Concrete input: TasksPage.fetchStatistics
(src/unnamed/part_000 lines 59-66). -/
theorem c4_counterexample :
    (⟨"TasksPage", "fetchStatistics", .consoleOnly "获取统计信息失败:"⟩ : PageHandler)
      ∈ pageHandlers ∧
    surfacesToast (ErrorSurface.consoleOnly "获取统计信息失败:") = false := by
  refine ⟨?_, rfl⟩
  simp [pageHandlers]

/-- C4 amended: every page handler whose API call fails surfaces the failure
as a toast notification, except the statistics fetches of the tasks,
datasets and results pages, which only log to the console, and the dashboard
data fetch, which logs to the console and sets an inline error state. -/
theorem c4_failures_toasted :
    ∀ h ∈ pageHandlers,
      h.handlerName ≠ "fetchStatistics" → h.handlerName ≠ "fetchDashboardData" →
      surfacesToast h.onFailure = true := by
  intro h hmem h1 h2
  fin_cases hmem <;> simp_all [surfacesToast]

theorem c4_failures_toasted_witness :
    surfacesToast (ErrorSurface.toast "获取任务列表失败") = true :=
  c4_failures_toasted ⟨"TasksPage", "fetchTasks", .toast "获取任务列表失败"⟩
    (by simp [pageHandlers]) (by decide) (by decide)

/-- The sizes array of formatFileSize. -/
def fileSizeUnits : List String := ["B", "KB", "MB", "GB"]

/-- Value displayed by formatFileSize in hundredths: models
parseFloat((bytes / Math.pow(1024, i)).toFixed(2)), rounding bytes / 1024^i
to the nearest hundredth. -/
def sizeHundredths (bytes i : Nat) : Nat := (bytes * 200 + 1024 ^ i) / (2 * 1024 ^ i)

/-- Decimal rendering of a hundredths value, with trailing zeros dropped as
parseFloat does to the output of toFixed(2). -/
def renderHundredths (n : Nat) : String :=
  if n % 100 = 0 then toString (n / 100)
  else if n % 10 = 0 then toString (n / 100) ++ "." ++ toString (n / 10 % 10)
  else toString (n / 100) ++ "." ++ toString (n % 100 / 10) ++ toString (n % 10)

/-- Embeds formatFileSize (src/frontend/src/app/page.tsx lines 494-500).
The floating-point index Math.floor(Math.log(bytes) / Math.log(1024)) is
modelled exactly as the floor of the base-1024 logarithm of bytes, which on
naturals is Nat.log 1024 bytes; reading sizes[i] out of range is modelled as
none. -/
def formatFileSize (bytes : Nat) : Option String :=
  if bytes = 0 then some "0 B"
  else
    match fileSizeUnits.get? (Nat.log 1024 bytes) with
    | none => none
    | some unit =>
      some (renderHundredths (sizeHundredths bytes (Nat.log 1024 bytes)) ++ " " ++ unit)

/-- C8: formatFileSize 0 is the string 0 B, and for every bytes between 1
and 1024 to the fourth power (exclusive) the function totally returns a
string made of a number, a space, and one of the units B, KB, MB, GB — the
unit index stays inside the sizes array under that precondition. -/
theorem c8_formatFileSize_total :
    formatFileSize 0 = some "0 B" ∧
    ∀ bytes : Nat, 1 ≤ bytes → bytes < 1024 ^ 4 →
      ∃ u, u ∈ fileSizeUnits ∧
        formatFileSize bytes =
          some (renderHundredths (sizeHundredths bytes (Nat.log 1024 bytes)) ++ " " ++ u) := by
  constructor
  · rfl
  · intro bytes h1 h2
    have hb : bytes ≠ 0 := by omega
    have hlog : Nat.log 1024 bytes < 4 := Nat.log_lt_of_lt_pow hb h2
    have h4 : Nat.log 1024 bytes = 0 ∨ Nat.log 1024 bytes = 1 ∨
        Nat.log 1024 bytes = 2 ∨ Nat.log 1024 bytes = 3 := by omega
    rcases h4 with h | h | h | h
    · exact ⟨"B", by simp [fileSizeUnits], by simp [formatFileSize, hb, h, fileSizeUnits]⟩
    · exact ⟨"KB", by simp [fileSizeUnits], by simp [formatFileSize, hb, h, fileSizeUnits]⟩
    · exact ⟨"MB", by simp [fileSizeUnits], by simp [formatFileSize, hb, h, fileSizeUnits]⟩
    · exact ⟨"GB", by simp [fileSizeUnits], by simp [formatFileSize, hb, h, fileSizeUnits]⟩

theorem c8_formatFileSize_total_witness :
    ∃ u, u ∈ fileSizeUnits ∧
      formatFileSize 2048 =
        some (renderHundredths (sizeHundredths 2048 (Nat.log 1024 2048)) ++ " " ++ u) :=
  c8_formatFileSize_total.2 2048 (by norm_num) (by norm_num)

/-- Embeds getQualityColor (src/frontend/src/app/results/page.tsx lines
83-88); the decimal literals 0.7, 0.3, 0.1 are modelled as exact rationals
and the silhouette score as a rational. -/
def getQualityColor (score : ℚ) : String :=
  if score > 7/10 then "success"
  else if score > 3/10 then "processing"
  else if score > 1/10 then "warning"
  else "error"

/-- Embeds getQualityStatus (src/frontend/src/app/results/page.tsx lines
90-95). -/
def getQualityStatus (score : ℚ) : String :=
  if score > 7/10 then "优秀"
  else if score > 3/10 then "良好"
  else if score > 1/10 then "一般"
  else "较差"

/-- C9: for every silhouette score the quality color and the quality label
agree — success iff 优秀, processing iff 良好, warning iff 一般, error iff
较差: the two functions partition the scores by the same thresholds 0.7,
0.3, 0.1. -/
theorem c9_quality_color_status_agree (score : ℚ) :
    (getQualityColor score = "success" ↔ getQualityStatus score = "优秀") ∧
    (getQualityColor score = "processing" ↔ getQualityStatus score = "良好") ∧
    (getQualityColor score = "warning" ↔ getQualityStatus score = "一般") ∧
    (getQualityColor score = "error" ↔ getQualityStatus score = "较差") := by
  unfold getQualityColor getQualityStatus
  split_ifs <;> decide

/-- The Ant Design icons used by getStatusConfig. -/
inductive StatusIcon where
  | clockCircle
  | playCircle
  | checkCircle
  | exclamationCircle
  | pauseCircle
deriving DecidableEq, Repr

/-- The value getStatusConfig returns: a tag color, a Chinese label, and an
optional icon (the fallback carries icon: null). -/
structure StatusConfig where
  color : String
  text : String
  icon : Option StatusIcon
deriving DecidableEq, Repr

/-- The configs record of getStatusConfig (src/unnamed/part_000 lines
110-135), as an association list. -/
def statusConfigs : List (String × StatusConfig) := [
  ("pending", ⟨"orange", "待处理", some .clockCircle⟩),
  ("running", ⟨"green", "运行中", some .playCircle⟩),
  ("completed", ⟨"blue", "已完成", some .checkCircle⟩),
  ("failed", ⟨"red", "失败", some .exclamationCircle⟩),
  ("cancelled", ⟨"default", "已取消", some .pauseCircle⟩)]

/-- The string-keyed property names a plain object literal inherits from
Object.prototype in the browser: a member access record[key] on one of these
keys yields the inherited function (or, for the last entry, the prototype
object itself), never undefined, and every such member is truthy. -/
def objectPrototypeKeys : List String := [
  "constructor", "hasOwnProperty", "isPrototypeOf", "propertyIsEnumerable",
  "toLocaleString", "toString", "valueOf",
  "__defineGetter__", "__defineSetter__", "__lookupGetter__", "__lookupSetter__",
  "__proto__"]

/-- A JavaScript value observed where the code expects a status config: an
own property of the record literal (a config object), or a truthy member
inherited from Object.prototype (a function or the prototype object, whose
color and text fields are undefined). -/
inductive JsValue (α : Type) where
  | val (v : α)
  | protoMember (key : String)
deriving DecidableEq, Repr

/-- Models the JavaScript member access record[key] on an object literal:
the own property when the literal declares the key, the truthy inherited
Object.prototype member when the key names one, and undefined (none)
otherwise. -/
def jsIndex {α : Type} (props : List (String × α)) (key : String) : Option (JsValue α) :=
  match List.find? (fun p => p.1 == key) props with
  | some p => some (JsValue.val p.2)
  | none =>
    if key ∈ objectPrototypeKeys then some (JsValue.protoMember key) else none

/-- Embeds getStatusConfig (src/unnamed/part_000 lines 109-138):
configs[status] || fallback. Everything the member access finds — an own
config object or an inherited Object.prototype member — is truthy and
short-circuits the ||; only undefined falls through to the fallback
{ color: "default", text: status, icon: null }. -/
def getStatusConfig (status : String) : JsValue StatusConfig :=
  match jsIndex statusConfigs status with
  | some v => v
  | none => .val ⟨"default", status, none⟩

/-- The value the dashboard status column render builds its tag from: a
color and a label. -/
structure TagConfig where
  color : String
  text : String
deriving DecidableEq, Repr

/-- The statusConfig record of the dashboard taskColumns status render
(src/frontend/src/app/page.tsx lines 215-221), as an association list. -/
def dashboardStatusConfigs : List (String × TagConfig) := [
  ("pending", ⟨"orange", "待处理"⟩),
  ("running", ⟨"green", "运行中"⟩),
  ("completed", ⟨"blue", "已完成"⟩),
  ("failed", ⟨"red", "失败"⟩),
  ("cancelled", ⟨"default", "已取消"⟩)]

/-- Embeds the dashboard taskColumns status render (page.tsx lines 214-224):
statusConfig[status] || fallback, with the same member-access semantics as
getStatusConfig and the fallback { color: "default", text: status }. -/
def dashboardStatusRender (status : String) : JsValue TagConfig :=
  match jsIndex dashboardStatusConfigs status with
  | some v => v
  | none => .val ⟨"default", status⟩

/-- Forgets the icon field of a status config; the dashboard render agrees
with getStatusConfig up to this projection. -/
def dropIcon : JsValue StatusConfig → JsValue TagConfig
  | .val c => .val ⟨c.color, c.text⟩
  | .protoMember k => .protoMember k

theorem findStatusNone (status : String)
    (h : status ∉ ["pending", "running", "completed", "failed", "cancelled"]) :
    List.find? (fun p => p.1 == status) statusConfigs = none := by
  rw [List.find?_eq_none]
  intro p hp
  fin_cases hp <;> simp only [beq_iff_eq] <;> rintro rfl <;> exact h (by simp)

theorem findDashboardNone (status : String)
    (h : status ∉ ["pending", "running", "completed", "failed", "cancelled"]) :
    List.find? (fun p => p.1 == status) dashboardStatusConfigs = none := by
  rw [List.find?_eq_none]
  intro p hp
  fin_cases hp <;> simp only [beq_iff_eq] <;> rintro rfl <;> exact h (by simp)

theorem status_render_agree (status : String) :
    dashboardStatusRender status = dropIcon (getStatusConfig status) := by
  by_cases h1 : status = "pending"
  · subst h1; decide
  by_cases h2 : status = "running"
  · subst h2; decide
  by_cases h3 : status = "completed"
  · subst h3; decide
  by_cases h4 : status = "failed"
  · subst h4; decide
  by_cases h5 : status = "cancelled"
  · subst h5; decide
  have hmem : status ∉ ["pending", "running", "completed", "failed", "cancelled"] := by
    simp [h1, h2, h3, h4, h5]
  by_cases hp : status ∈ objectPrototypeKeys <;>
    simp [dashboardStatusRender, getStatusConfig, jsIndex,
      findStatusNone status hmem, findDashboardNone status hmem, hp, dropIcon]

/-- C10 as stated is false: a plain object literal inherits the members of
Object.prototype, so for a status string naming one of them — toString here —
configs[status] finds the inherited function, which is truthy; the ||
short-circuit keeps it, and getStatusConfig returns that member rather than
the fallback with color default and the raw status string. The dashboard
render behaves the same way on the same input. -/
theorem c10_counterexample :
    getStatusConfig "toString" = JsValue.protoMember "toString" ∧
    getStatusConfig "toString" ≠ JsValue.val ⟨"default", "toString", none⟩ ∧
    dashboardStatusRender "toString" = JsValue.protoMember "toString" :=
  ⟨by decide, by decide, by decide⟩

/-- C10 amended: getStatusConfig never throws and is total over arbitrary
status strings — each of the five known statuses yields its fixed color and
Chinese label; every other string that does not name an inherited
Object.prototype member yields color default with the raw status string as
the text; a string that does name an inherited Object.prototype member
yields that truthy inherited member instead of the fallback; and the
dashboard status renderer behaves identically (same configs up to the icon
field, same inherited members, same fallback). -/
theorem c10_status_config_total (status : String) :
    getStatusConfig "pending" = JsValue.val ⟨"orange", "待处理", some .clockCircle⟩ ∧
    getStatusConfig "running" = JsValue.val ⟨"green", "运行中", some .playCircle⟩ ∧
    getStatusConfig "completed" = JsValue.val ⟨"blue", "已完成", some .checkCircle⟩ ∧
    getStatusConfig "failed" = JsValue.val ⟨"red", "失败", some .exclamationCircle⟩ ∧
    getStatusConfig "cancelled" = JsValue.val ⟨"default", "已取消", some .pauseCircle⟩ ∧
    (status ∉ ["pending", "running", "completed", "failed", "cancelled"] →
      status ∉ objectPrototypeKeys →
      getStatusConfig status = JsValue.val ⟨"default", status, none⟩ ∧
      dashboardStatusRender status = JsValue.val ⟨"default", status⟩) ∧
    (status ∉ ["pending", "running", "completed", "failed", "cancelled"] →
      status ∈ objectPrototypeKeys →
      getStatusConfig status = JsValue.protoMember status ∧
      dashboardStatusRender status = JsValue.protoMember status) ∧
    dashboardStatusRender status = dropIcon (getStatusConfig status) := by
  refine ⟨by decide, by decide, by decide, by decide, by decide, ?_, ?_,
    status_render_agree status⟩
  · intro h hp
    constructor
    · simp [getStatusConfig, jsIndex, findStatusNone status h, hp]
    · simp [dashboardStatusRender, jsIndex, findDashboardNone status h, hp]
  · intro h hp
    constructor
    · simp [getStatusConfig, jsIndex, findStatusNone status h, hp]
    · simp [dashboardStatusRender, jsIndex, findDashboardNone status h, hp]

theorem c10_status_config_total_witness :
    getStatusConfig "weird" = JsValue.val ⟨"default", "weird", none⟩ ∧
    dashboardStatusRender "weird" = JsValue.val ⟨"default", "weird"⟩ :=
  (c10_status_config_total "weird").2.2.2.2.2.1 (by decide) (by decide)
